import Mathlib

/-!
Verification development for the interactive behavior layer of the
plutusllp-repo/website landing page (`src/script.js`).

The script is a set of DOM event handlers: smooth-scroll navigation,
scroll-triggered reveal animations driven by an intersection observer,
a button ripple effect, a modal subsystem (info-request and video
variants) and a header scroll shadow.  Each handler is embedded below
as a pure Lean function over an explicit state type; scheduled
callbacks (`setTimeout`, `requestAnimationFrame`) are modelled as
explicit "pending task" values or as separate phase functions, and a
JavaScript exception (a `TypeError` from dereferencing a `null` DOM
lookup) is modelled with an explicit error value.
-/

namespace SimpleTort

/-- A JavaScript runtime exception relevant to this script: the
`TypeError` thrown when a property of `null` is accessed (for example
calling `.addEventListener` on the result of a failed DOM query). -/
inductive JsError
  | typeError
deriving DecidableEq

/-- A JavaScript number restricted to the values produced by the
script's delay arithmetic: either `NaN` or a nonnegative integer. -/
inductive JSNum
  | nan
  | num (n : Nat)
deriving DecidableEq

/-- JavaScript multiplication on `JSNum`: `NaN` is absorbing. -/
def jsMul : JSNum → JSNum → JSNum
  | JSNum.num a, JSNum.num b => JSNum.num (a * b)
  | _, _ => JSNum.nan

/-- JavaScript `ToNumber` coercion applied to a string: the value
model, restricted to the nonnegative decimal integer literals that
the `data-delay` attribute is documented to carry (where it matches
JS exactly); every other string is modelled as `NaN`.  Which strings
JS maps to a number at all — rather than `NaN` — is classified
separately and faithfully for arbitrary strings by
`jsNumericString` below. -/
def jsStringToNumber (s : String) : JSNum :=
  if s.data ≠ [] ∧ s.data.all Char.isDigit then
    JSNum.num (s.data.foldl (fun n c => n * 10 + (c.toNat - 48)) 0)
  else JSNum.nan

/-- The characters JavaScript `ToNumber` strips from both ends of its
string argument: WhiteSpace (TAB, VT, FF, SP, NBSP, ZWNBSP and the
Unicode space separators) and LineTerminator (LF, CR, LS, PS). -/
def jsWhitespace (c : Char) : Bool :=
  c.toNat = 9 || c.toNat = 10 || c.toNat = 11 || c.toNat = 12 ||
  c.toNat = 13 || c.toNat = 32 || c.toNat = 160 || c.toNat = 5760 ||
  (8192 ≤ c.toNat && c.toNat ≤ 8202) ||
  c.toNat = 8232 || c.toNat = 8233 || c.toNat = 8239 ||
  c.toNat = 8287 || c.toNat = 12288 || c.toNat = 65279

/-- Leading and trailing whitespace removal, as `ToNumber` performs
before parsing. -/
def jsTrim (l : List Char) : List Char :=
  ((l.dropWhile jsWhitespace).reverse.dropWhile jsWhitespace).reverse

/-- A nonempty run of decimal digits (`DecimalDigits`). -/
def decDigitRun (l : List Char) : Bool :=
  !l.isEmpty && l.all Char.isDigit

/-- A hexadecimal digit. -/
def isHexDigit (c : Char) : Bool :=
  c.isDigit || ('a' ≤ c && c ≤ 'f') || ('A' ≤ c && c ≤ 'F')

/-- An octal digit. -/
def isOctalDigit (c : Char) : Bool :=
  '0' ≤ c && c ≤ '7'

/-- A binary digit. -/
def isBinaryDigit (c : Char) : Bool :=
  c == '0' || c == '1'

/-- The mantissa of a decimal literal:
`DecimalDigits [. DecimalDigits?]` or `. DecimalDigits`. -/
def decMantissa (l : List Char) : Bool :=
  match l.span (fun c => c != '.') with
  | (ip, []) => decDigitRun ip
  | (ip, _ :: fp) =>
      (decDigitRun ip && fp.all Char.isDigit) || (ip.isEmpty && decDigitRun fp)

/-- An `ExponentPart` with its `e`/`E` marker already removed: an
optionally signed nonempty digit run. -/
def decExponent (l : List Char) : Bool :=
  match l with
  | '+' :: ds => decDigitRun ds
  | '-' :: ds => decDigitRun ds
  | ds => decDigitRun ds

/-- `StrUnsignedDecimalLiteral`: `Infinity`, or a mantissa followed by
an optional exponent part. -/
def strUnsignedDecimal (l : List Char) : Bool :=
  (l == "Infinity".data) ||
    (match l.span (fun c => c != 'e' && c != 'E') with
     | (m, []) => decMantissa m
     | (m, _ :: ex) => decMantissa m && decExponent ex)

/-- `StrDecimalLiteral`: an optionally signed unsigned decimal
literal (a sign is permitted only on this form). -/
def strDecimal (l : List Char) : Bool :=
  match l with
  | '+' :: r => strUnsignedDecimal r
  | '-' :: r => strUnsignedDecimal r
  | r => strUnsignedDecimal r

/-- The signless non-decimal integer forms `0x…`/`0X…`, `0o…`/`0O…`,
`0b…`/`0B…`. -/
def nonDecimalIntegerLit (l : List Char) : Bool :=
  match l with
  | '0' :: 'x' :: ds => !ds.isEmpty && ds.all isHexDigit
  | '0' :: 'X' :: ds => !ds.isEmpty && ds.all isHexDigit
  | '0' :: 'o' :: ds => !ds.isEmpty && ds.all isOctalDigit
  | '0' :: 'O' :: ds => !ds.isEmpty && ds.all isOctalDigit
  | '0' :: 'b' :: ds => !ds.isEmpty && ds.all isBinaryDigit
  | '0' :: 'B' :: ds => !ds.isEmpty && ds.all isBinaryDigit
  | _ => false

/-- `StringNumericLiteral` applied to an already-trimmed string: the
empty string (value 0), a decimal literal, or a non-decimal integer
literal. -/
def jsTrimmedNumeric (t : List Char) : Bool :=
  t.isEmpty || strDecimal t || nonDecimalIntegerLit t

/-- Whether JavaScript `ToNumber` maps the string to a number rather
than to `NaN`: the trimmed string must match `StringNumericLiteral`.
A plain digit run — the delay attribute's documented format — is
listed first; it is also accepted by the general grammar, so the
disjunct does not enlarge the recognized language. -/
def jsNumericString (s : String) : Bool :=
  decDigitRun s.data || jsTrimmedNumeric (jsTrim s.data)

/-- The effective delay `setTimeout` uses for a given argument: the
WebIDL conversion of the timeout argument maps `NaN` to `0`
(and the script never produces negative numeric delays). -/
def setTimeoutDelay : JSNum → Nat
  | JSNum.nan => 0
  | JSNum.num n => n

/-! ### Scroll-triggered animations (`initScrollAnimations`)

Source lines 63–82: the intersection-observer callback reads
`entry.target.dataset.delay || 0`, schedules
`entry.target.classList.add('visible')` after `delay * 100`
time units, and unobserves the target. -/

/-- `entry.target.dataset.delay || 0` (source line 67): an absent
attribute (`undefined`) and the empty string are falsy, so the `|| 0`
fallback yields the number `0`; any other string passes through and is
later coerced by the multiplication. -/
def delayRaw : Option String → JSNum
  | none => JSNum.num 0
  | some s => if s = "" then JSNum.num 0 else jsStringToNumber s

/-- The argument `delay * 100` passed to `setTimeout`
(source line 71). -/
def timeoutArg (attr : Option String) : JSNum :=
  jsMul (delayRaw attr) (JSNum.num 100)

/-- The effective scheduling delay of the reveal for a given
`data-delay` attribute value. -/
def elemDelay (attr : Option String) : Nat :=
  setTimeoutDelay (timeoutArg attr)

/-- The observer-relevant state of one animatable element (a workflow
card, config item or feature item): its `data-delay` attribute, whether
it is still registered with the observer, and the time at which the
`visible` class has been scheduled to be added (if ever). -/
structure ObsElem where
  delayAttr : Option String
  observed : Bool
  visibleAt : Option Nat
deriving DecidableEq

/-- An element as registered by `initScrollAnimations`: observed and
not yet revealed. -/
def freshElem (attr : Option String) : ObsElem :=
  { delayAttr := attr, observed := true, visibleAt := none }

/-- One intersection-observer callback delivery for the element: the
event carries its time and the `isIntersecting` flag.  While the
element is observed and the entry is intersecting, the callback
schedules the `visible` class at `now + delay * 100` and unobserves
the target (source lines 65–74); otherwise nothing happens. -/
def elemStep (e : ObsElem) (ev : Nat × Bool) : ObsElem :=
  if e.observed && ev.2 then
    { e with observed := false, visibleAt := some (ev.1 + elemDelay e.delayAttr) }
  else e

/-- Run the element through a sequence of observer deliveries. -/
def elemRun (e : ObsElem) (evs : List (Nat × Bool)) : ObsElem :=
  evs.foldl elemStep e

/-- The time of the first intersecting delivery in a sequence, if
any. -/
def firstIntersection (evs : List (Nat × Bool)) : Option Nat :=
  (evs.find? (fun ev => ev.2)).map (fun ev => ev.1)

theorem elemRun_unobserved (evs : List (Nat × Bool)) :
    ∀ e : ObsElem, e.observed = false → elemRun e evs = e := by
  induction evs with
  | nil => intro e _; rfl
  | cons ev rest ih =>
      intro e he
      have hstep : elemStep e ev = e := by
        simp [elemStep, he]
      simpa [elemRun, hstep] using ih e he

/-- A freshly registered element's reveal time is exactly the first
intersection time plus its effective delay, regardless of the rest of
the delivery sequence. -/
theorem elemRun_visibleAt (attr : Option String) (evs : List (Nat × Bool)) :
    (elemRun (freshElem attr) evs).visibleAt
      = (firstIntersection evs).map (fun t => t + elemDelay attr) := by
  induction evs with
  | nil => rfl
  | cons ev rest ih =>
      by_cases hint : ev.2 = true
      · have hstep : elemStep (freshElem attr) ev
            = { delayAttr := attr, observed := false,
                visibleAt := some (ev.1 + elemDelay attr) } := by
          simp [elemStep, freshElem, hint]
        have hrun : elemRun (freshElem attr) (ev :: rest)
            = { delayAttr := attr, observed := false,
                visibleAt := some (ev.1 + elemDelay attr) } := by
          have := elemRun_unobserved rest
            { delayAttr := attr, observed := false,
              visibleAt := some (ev.1 + elemDelay attr) } rfl
          simpa [elemRun, hstep] using this
        simp [hrun, firstIntersection, List.find?, hint]
      · have hstep : elemStep (freshElem attr) ev = freshElem attr := by
          simp [elemStep, freshElem, hint]
        have hfalse : ev.2 = false := by
          cases h2 : ev.2 with
          | false => rfl
          | true => exact absurd h2 hint
        simpa [elemRun, hstep, firstIntersection, List.find?, hfalse] using ih

/-! ### Smooth scroll navigation (`initSmoothScroll`)

Source lines 22–40: the click handler on every `a[href^="#"]` calls
`e.preventDefault()`, returns when the href is exactly `"#"`, queries
the target and, when present, scrolls to
`getBoundingClientRect().top + window.pageYOffset - 80`. -/

/-- The scroll effect a click produces: either nothing, or a call to
`window.scrollTo` with the given top coordinate. -/
inductive ScrollAction
  | noScroll
  | scrollTo (top : Int)
deriving DecidableEq

/-- The anchor click handler.  `lookup` models
`document.querySelector` on the href selector, returning the target's
`getBoundingClientRect().top` when an element matches; `pageYOffset`
is the current vertical scroll offset.  The returned boolean records
that `e.preventDefault()` ran (it runs unconditionally, source
line 23). -/
def smoothScrollClick (href : String) (lookup : String → Option Int)
    (pageYOffset : Int) : Bool × ScrollAction :=
  if href = "#" then (true, ScrollAction.noScroll)
  else
    match lookup href with
    | none => (true, ScrollAction.noScroll)
    | some elementPosition =>
        (true, ScrollAction.scrollTo (elementPosition + pageYOffset - 80))

/-! ### Header scroll effect (`initHeaderScroll`)

Source lines 505–521: `document.getElementById('header')` is read
once with no presence guard; every scroll event sets
`header.style.boxShadow` from a 50-unit threshold and records
`lastScroll`. -/

/-- The mutable style state of the header element. -/
structure HeaderBox where
  boxShadow : String
deriving DecidableEq

/-- One scroll-event tick of the header handler.  When the document
has no `#header` element the handler dereferences `null` and throws a
`TypeError`; otherwise it sets the shadow from the threshold and
returns the updated header together with the new `lastScroll`
value. -/
def headerScrollStep (header : Option HeaderBox) (currentScroll : Nat) :
    Except JsError (HeaderBox × Nat) :=
  match header with
  | none => Except.error JsError.typeError
  | some _ =>
      Except.ok
        ({ boxShadow :=
            if currentScroll > 50 then "0 4px 30px rgba(0, 0, 0, 0.1)"
            else "none" },
         currentScroll)

/-! ### Modal subsystem

Source lines 189–297 and 303–499: `showDemoModal`, `showVideoModal`,
`closeModal`, `showSuccessMessage`, `addModalStyles`, and the global
Escape keydown handler (lines 543–550). -/

/-- The two modal content variants. -/
inductive Variant
  | info
  | video
deriving DecidableEq

/-- One `.modal-overlay` node: its identity, content variant, whether
the `active` class is set, whether its `.modal-content` has been
replaced by the success panel, and whether a functioning
`.modal-close` control (wired to `closeModal`) is present. -/
structure Overlay where
  oid : Nat
  variant : Variant
  active : Bool
  success : Bool
  closeWired : Bool
deriving DecidableEq

/-- The document state the modal subsystem touches: the list of
`.modal-overlay` nodes in document order, the
`document.body.style.overflow = 'hidden'` scroll lock, the ids of
`<style>` elements injected into the head, and a counter supplying
identities for newly created overlay nodes. -/
structure Doc where
  overlays : List Overlay
  bodyOverflowHidden : Bool
  headStyles : List String
  nextOid : Nat
deriving DecidableEq

/-- A document with no overlay, unlocked scroll and no injected
styles. -/
def emptyDoc : Doc :=
  { overlays := [], bodyOverflowHidden := false, headStyles := [], nextOid := 0 }

/-- `addModalStyles` (source lines 303–308, 498): returns immediately
when a `<style id="modal-styles">` already exists, otherwise appends
one to the head. -/
def addModalStyles (d : Doc) : Doc :=
  if "modal-styles" ∈ d.headStyles then d
  else { d with headStyles := d.headStyles ++ ["modal-styles"] }

/-- Whether the markup assigned to the demo overlay's `innerHTML`
(source lines 194–203) contains an element with id `demoForm`: it does
not — the markup holds only a close button, an icon, a title and a
paragraph of text. -/
def demoMarkupHasForm : Bool := false

/-- `showDemoModal` (source lines 189–227): injects the modal styles,
appends a fresh info-variant overlay (with a `.modal-close` wired to
`closeModal`), locks background scroll, requests an activation frame,
and then runs `overlay.querySelector('#demoForm').addEventListener`.
Since the markup contains no `#demoForm`, that query yields `null` and
the `.addEventListener` access throws a `TypeError` — after all the
DOM mutations above have already happened.  The result is the mutated
document paired with the exception, if one was thrown. -/
def showDemoModal (d : Doc) : Doc × Option JsError :=
  let d1 := addModalStyles d
  let d2 := { d1 with
    overlays := d1.overlays ++
      [{ oid := d1.nextOid, variant := Variant.info, active := false,
         success := false, closeWired := true }],
    bodyOverflowHidden := true,
    nextOid := d1.nextOid + 1 }
  (d2, if demoMarkupHasForm then none else some JsError.typeError)

/-- `showVideoModal` (source lines 233–260): same construction with
the video markup; it wires only close handlers, so no failing lookup
occurs. -/
def showVideoModal (d : Doc) : Doc :=
  let d1 := addModalStyles d
  { d1 with
    overlays := d1.overlays ++
      [{ oid := d1.nextOid, variant := Variant.video, active := false,
         success := false, closeWired := true }],
    bodyOverflowHidden := true,
    nextOid := d1.nextOid + 1 }

/-- The `requestAnimationFrame` callback scheduled by both open
functions (source lines 212–214, 252–254): adds the `active` class to
the given overlay on the next frame. -/
def rafActivate (oid : Nat) (d : Doc) : Doc :=
  { d with overlays :=
      d.overlays.map (fun o => if o.oid = oid then { o with active := true } else o) }

/-- The synchronous part of `closeModal` (source line 267): removes
the `active` class from the overlay; the node stays in the document
until the scheduled removal fires. -/
def closeModalStart (oid : Nat) (d : Doc) : Doc :=
  { d with overlays :=
      d.overlays.map (fun o => if o.oid = oid then { o with active := false } else o) }

/-- The `setTimeout` callback of `closeModal` (source lines 269–272),
which fires 300 time units after the close began: removes the overlay
node and restores background scroll. -/
def closeModalFinish (oid : Nat) (d : Doc) : Doc :=
  { d with
    overlays := d.overlays.filter (fun o => o.oid ≠ oid),
    bodyOverflowHidden := false }

/-- The complete effect of `closeModal` once its 300-unit delay has
elapsed. -/
def closeModal (oid : Nat) (d : Doc) : Doc :=
  closeModalFinish oid (closeModalStart oid d)

/-- The global keydown handler (source lines 543–550): on `Escape` it
queries the first `.modal-overlay` in document order and, when one is
present, initiates `closeModal` on it.  The second component records
the overlay on which a close was initiated, if any. -/
def keydown (key : String) (d : Doc) : Doc × Option Nat :=
  if key = "Escape" then
    match d.overlays.head? with
    | none => (d, none)
    | some o => (closeModalStart o.oid d, some o.oid)
  else (d, none)

/-- `showSuccessMessage` (source lines 279–297): replaces the
overlay's `.modal-content` inner content with the success panel and
inserts a fresh `.modal-close` control wired to `closeModal` in front
of it.  The overlay itself stays in the document. -/
def showSuccessMessage (oid : Nat) (d : Doc) : Doc :=
  { d with overlays :=
      (d.overlays.map
        (fun o => if o.oid = oid then { o with success := true, closeWired := true } else o)) }

/-- The submit handler wired for the info-request form (source lines
223–226): `e.preventDefault()` followed by `showSuccessMessage`.  The
boolean records that default form submission was suppressed. -/
def demoSubmit (oid : Nat) (d : Doc) : Bool × Doc :=
  (true, showSuccessMessage oid d)

/-! ### Ripple effect and button click handlers
(`createRipple`, `initButtonInteractions`)

Source lines 108–183. -/

/-- A ripple `<span>` node's geometry as set by its inline style. -/
structure Ripple where
  width : ℚ
  height : ℚ
  left : ℚ
  top : ℚ
deriving DecidableEq

/-- The state of a clicked button that `createRipple` touches: its
bounding rectangle, its inline `position` and `overflow` styles, and
its appended ripple children. -/
structure Button where
  rectLeft : ℚ
  rectTop : ℚ
  rectWidth : ℚ
  rectHeight : ℚ
  stylePosition : Option String
  styleOverflow : Option String
  ripples : List Ripple
deriving DecidableEq

/-- A callback scheduled by a click handler, to run after the paired
delay. -/
inductive ScheduledTask
  | removeRippleTask
  | openDemoTask
deriving DecidableEq

/-- The ripple keyframes injection (source lines 164–176): appends a
`<style id="ripple-styles">` to the head unless one already exists. -/
def addRippleStyles (hs : List String) : List String :=
  if "ripple-styles" ∈ hs then hs else hs ++ ["ripple-styles"]

/-- `createRipple` (source lines 142–183): computes the ripple
geometry from the click coordinates and the button rectangle, injects
the keyframes style idempotently, sets the button's inline style
`position` to `relative` and `overflow` to `hidden`, appends the
ripple node to the button, and schedules `ripple.remove()` 600 time
units later. -/
def createRipple (clientX clientY : ℚ) (b : Button) (d : Doc) :
    (Button × Doc) × List (Nat × ScheduledTask) :=
  let size := max b.rectWidth b.rectHeight
  let x := clientX - b.rectLeft - size / 2
  let y := clientY - b.rectTop - size / 2
  let r : Ripple := { width := size, height := size, left := x, top := y }
  let d1 := { d with headStyles := addRippleStyles d.headStyles }
  let b1 := { b with
    stylePosition := some "relative",
    styleOverflow := some "hidden",
    ripples := b.ripples ++ [r] }
  ((b1, d1), [(600, ScheduledTask.removeRippleTask)])

/-- The effect of the `setTimeout(() => ripple.remove(), 600)`
callback on the button, for the ripple appended by the call that
scheduled it (the last child, assuming no interleaving append). -/
def removeAppendedRipple (b : Button) : Button :=
  { b with ripples := b.ripples.dropLast }

/-- The click handler attached to the call-to-action buttons
(`#heroCta`, `#ctaButton`, `.header-cta`; source lines 115–127): runs
`createRipple` synchronously and schedules `showDemoModal` 300 time
units later.  The overlays are untouched synchronously. -/
def ctaClick (clientX clientY : ℚ) (b : Button) (d : Doc) :
    (Button × Doc) × List (Nat × ScheduledTask) :=
  let r := createRipple clientX clientY b d
  (r.1, r.2 ++ [(300, ScheduledTask.openDemoTask)])

/-- The click handler attached to the video trigger (`.btn-secondary`;
source lines 130–135): calls `showVideoModal()` directly — the overlay
is appended synchronously and nothing is scheduled. -/
def videoBtnClick (b : Button) (d : Doc) :
    (Button × Doc) × List (Nat × ScheduledTask) :=
  ((b, showVideoModal d), [])

/-! ### Open/close event sequences

A trace semantics for the modal lifecycle: a sequence of
well-separated user events, where each event's scheduled callbacks
(the activation frame of an open, the 300-unit removal of a close)
fire before the next event arrives. -/

/-- A user-level modal event. -/
inductive MEvent
  | openInfo
  | openVideo
  | closeFirst
deriving DecidableEq

/-- The document-state effect of one event: an open appends the new
overlay (for the info variant, the state component of `showDemoModal`
— its mutations all precede the thrown `TypeError`) and its activation
frame fires; a close targets the first overlay in document order (as
both the Escape handler and the wired close controls do) and its
300-unit removal fires. -/
def stepEvent (d : Doc) : MEvent → Doc
  | MEvent.openInfo => rafActivate d.nextOid (showDemoModal d).1
  | MEvent.openVideo => rafActivate d.nextOid (showVideoModal d)
  | MEvent.closeFirst =>
      match d.overlays.head? with
      | none => d
      | some o => closeModal o.oid d

/-- Run a sequence of modal events. -/
def runEvents (d : Doc) (evs : List MEvent) : Doc :=
  evs.foldl stepEvent d

/-- The alternation automaton over modal events: `some b` means the
events so far are a legal alternation and `b` records whether an
overlay is currently open; `none` means the sequence opened while open
or closed while closed. -/
def altStep : Option Bool → MEvent → Option Bool
  | some false, MEvent.openInfo => some true
  | some false, MEvent.openVideo => some true
  | some true, MEvent.closeFirst => some false
  | _, _ => none

/-- Run the alternation automaton over an event sequence. -/
def altRun (b : Option Bool) (evs : List MEvent) : Option Bool :=
  evs.foldl altStep b

/-- A document whose head already holds the modal style marker. -/
def docWithModalStyles : Doc :=
  { emptyDoc with headStyles := ["modal-styles"] }

/-- A document holding one open info-variant overlay. -/
def oneInfoDoc : Doc :=
  { overlays :=
      [{ oid := 0, variant := Variant.info, active := true,
         success := false, closeWired := true }],
    bodyOverflowHidden := true, headStyles := ["modal-styles"], nextOid := 1 }

/-- A document holding two overlays, the info one first in document
order. -/
def twoOverlayDoc : Doc :=
  { overlays :=
      [{ oid := 0, variant := Variant.info, active := true,
         success := false, closeWired := true },
       { oid := 1, variant := Variant.video, active := true,
         success := false, closeWired := true }],
    bodyOverflowHidden := true, headStyles := ["modal-styles"], nextOid := 2 }

/-! ### Helper lemmas -/

@[simp]
theorem addModalStyles_overlays (d : Doc) :
    (addModalStyles d).overlays = d.overlays := by
  by_cases h : "modal-styles" ∈ d.headStyles <;> simp [addModalStyles, h]

@[simp]
theorem addModalStyles_body (d : Doc) :
    (addModalStyles d).bodyOverflowHidden = d.bodyOverflowHidden := by
  by_cases h : "modal-styles" ∈ d.headStyles <;> simp [addModalStyles, h]

@[simp]
theorem addModalStyles_nextOid (d : Doc) :
    (addModalStyles d).nextOid = d.nextOid := by
  by_cases h : "modal-styles" ∈ d.headStyles <;> simp [addModalStyles, h]

theorem addModalStyles_mem (d : Doc) (h : "modal-styles" ∈ d.headStyles) :
    addModalStyles d = d := by
  simp [addModalStyles, h]

theorem addModalStyles_has_marker (d : Doc) :
    "modal-styles" ∈ (addModalStyles d).headStyles := by
  by_cases h : "modal-styles" ∈ d.headStyles <;> simp [addModalStyles, h]

theorem addRippleStyles_mem (hs : List String) (h : "ripple-styles" ∈ hs) :
    addRippleStyles hs = hs := by
  simp [addRippleStyles, h]

theorem addRippleStyles_has_marker (hs : List String) :
    "ripple-styles" ∈ addRippleStyles hs := by
  by_cases h : "ripple-styles" ∈ hs <;> simp [addRippleStyles, h]

/-! ### Claim theorems -/

/-- Claim C1 (code bug): the claim states that every fallible DOM
lookup in the entry-point handlers is guarded so no exception
propagates, but `showDemoModal` runs
`overlay.querySelector('#demoForm').addEventListener(...)` on a markup
that contains no `#demoForm`, so every invocation throws a `TypeError`
(after the overlay has already been appended); `initHeaderScroll`
likewise dereferences `document.getElementById('header')` with no
presence guard, so its scroll handler throws when the header is
absent. -/
theorem showDemoModal_unguarded_throws :
    (showDemoModal emptyDoc).2 = some JsError.typeError
    ∧ demoMarkupHasForm = false
    ∧ headerScrollStep none 60 = Except.error JsError.typeError :=
  ⟨rfl, rfl, rfl⟩

/-- Claim C4: for every animatable element whose delay attribute is
numerically interpretable (including an absent attribute, which
behaves as 0), the `visible` marker is scheduled exactly once, only
at `first intersection time + delay × 100`, regardless of any later
re-entries into the viewport; if the element never intersects, the
marker is never scheduled. -/
theorem reveal_once_after_first_intersection (attr : Option String) (n : Nat)
    (h : delayRaw attr = JSNum.num n) (evs : List (Nat × Bool)) :
    (elemRun (freshElem attr) evs).visibleAt
      = (firstIntersection evs).map (fun t => t + n * 100)
    ∧ delayRaw none = JSNum.num 0 := by
  constructor
  · have hd : elemDelay attr = n * 100 := by
      simp [elemDelay, timeoutArg, h, jsMul, setTimeoutDelay]
    simpa [hd] using elemRun_visibleAt attr evs
  · rfl

/-- Witness for C4: a card with `data-delay="2"` that first
intersects at time 10 is scheduled to reveal at time 210, and a later
intersection at time 50 does not change that. -/
theorem reveal_once_after_first_intersection_witness :
    delayRaw (some "2") = JSNum.num 2
    ∧ (elemRun (freshElem (some "2"))
        [(7, false), (10, true), (50, true)]).visibleAt = some 210 := by
  have h2 : delayRaw (some "2") = JSNum.num 2 := by decide
  refine ⟨h2, ?_⟩
  have h := reveal_once_after_first_intersection (some "2") 2 h2
      [(7, false), (10, true), (50, true)]
  rw [h.1]
  rfl

/-- Sanity check of the `ToNumber` classifier on representative
strings: decimal fractions, signs, surrounding whitespace, exponent
and hex forms are numeric in JS; trailing garbage, a bare exponent
marker and a double dot are not. -/
theorem jsNumericString_examples :
    jsNumericString "2.5" = true
    ∧ jsNumericString " 2 " = true
    ∧ jsNumericString "1e2" = true
    ∧ jsNumericString "-3" = true
    ∧ jsNumericString "+.5e-1" = true
    ∧ jsNumericString "0x1A" = true
    ∧ jsNumericString "Infinity" = true
    ∧ jsNumericString "" = true
    ∧ jsNumericString "fast" = false
    ∧ jsNumericString "2px" = false
    ∧ jsNumericString "1e" = false
    ∧ jsNumericString "1.2.3" = false := by
  decide

/-- Claim C10: for every delay attribute string that JavaScript's
`ToNumber` maps to `NaN` (non-numeric under the full
`StringNumericLiteral` grammar — trimming, signs, fractions,
exponents and hex forms included), the reveal still occurs without
error: the truthy attribute makes the timeout argument `delay * 100`
evaluate to `NaN`, `setTimeout` converts that to an effective delay
of 0, and the `visible` marker is scheduled at the first intersection
time itself — so the reveal path is total over arbitrary
delay-attribute strings. -/
theorem nonNumeric_delay_reveals_immediately (s : String)
    (h : jsNumericString s = false)
    (evs : List (Nat × Bool)) :
    jsStringToNumber s = JSNum.nan
    ∧ timeoutArg (some s) = JSNum.nan
    ∧ elemDelay (some s) = 0
    ∧ (elemRun (freshElem (some s)) evs).visibleAt = firstIntersection evs := by
  have h' : (decDigitRun s.data || jsTrimmedNumeric (jsTrim s.data)) = false := h
  have h0 : decDigitRun s.data = false := by
    cases hd : decDigitRun s.data
    · rfl
    · exfalso
      rw [hd] at h'
      simp at h'
  have hne : s ≠ "" := by
    intro he
    rw [he] at h
    exact Bool.noConfusion ((by decide : jsNumericString "" = true).symm.trans h)
  have hnum : jsStringToNumber s = JSNum.nan := by
    by_cases hc : s.data ≠ [] ∧ s.data.all Char.isDigit = true
    · exfalso
      have hemp : s.data.isEmpty = false := by
        cases hd : s.data with
        | nil => exact absurd hd hc.1
        | cons a t => rfl
      have hrun : decDigitRun s.data = true := by
        simp [decDigitRun, hemp, hc.2]
      rw [hrun] at h0
      exact Bool.noConfusion h0
    · simp only [jsStringToNumber]
      rw [if_neg hc]
  have hraw : delayRaw (some s) = JSNum.nan := by
    simp [delayRaw, hne, hnum]
  have ht : timeoutArg (some s) = JSNum.nan := by
    simp [timeoutArg, hraw, jsMul]
  have hd : elemDelay (some s) = 0 := by
    simp [elemDelay, ht, setTimeoutDelay]
  refine ⟨hnum, ht, hd, ?_⟩
  rw [elemRun_visibleAt, hd]
  cases firstIntersection evs <;> simp

/-- Witness for C10: the attribute value `"fast"` is non-numeric
under the JS grammar, coerces to `NaN`, yields a 0 effective delay,
and an element first intersecting at time 3 is revealed at time 3. -/
theorem nonNumeric_delay_witness :
    jsNumericString "fast" = false
    ∧ jsStringToNumber "fast" = JSNum.nan
    ∧ elemDelay (some "fast") = 0
    ∧ (elemRun (freshElem (some "fast")) [(3, true)]).visibleAt = some 3 := by
  have hw := nonNumeric_delay_reveals_immediately "fast" (by decide) [(3, true)]
  exact ⟨by decide, hw.1, hw.2.2.1, by rw [hw.2.2.2]; rfl⟩

/-- Claim C5 counterexample: for an anchor whose target sits at the
very top of the document (bounding top 0 at scroll offset 0), the
computed scroll destination is `0 + 0 - 80 = -80`, which is negative —
refuting "this destination is never negative". -/
theorem anchor_scroll_negative_dest :
    (smoothScrollClick "#hero"
        (fun h => if h = "#hero" then some 0 else none) 0).2
      = ScrollAction.scrollTo (-80)
    ∧ (-80 : Int) < 0 := by
  decide

/-- Claim C5 (amended): every anchor click suppresses default
navigation; an href of exactly `"#"` or a missing target is otherwise
a no-op; and for a present target the destination passed to the
scroll call is exactly `bounding top + current offset - 80` — a value
that may lie outside the document bounds (the browser clamps the
effective position). -/
theorem anchor_click_behavior (href : String)
    (lookup : String → Option Int) (off : Int) :
    (smoothScrollClick href lookup off).1 = true
    ∧ (href = "#" →
        (smoothScrollClick href lookup off).2 = ScrollAction.noScroll)
    ∧ (lookup href = none →
        (smoothScrollClick href lookup off).2 = ScrollAction.noScroll)
    ∧ (∀ tp : Int, href ≠ "#" → lookup href = some tp →
        (smoothScrollClick href lookup off).2
          = ScrollAction.scrollTo (tp + off - 80)) := by
  refine ⟨?_, ?_, ?_, ?_⟩
  · by_cases h : href = "#"
    · simp [smoothScrollClick, h]
    · cases hl : lookup href <;> simp [smoothScrollClick, h, hl]
  · intro h
    simp [smoothScrollClick, h]
  · intro h
    by_cases hh : href = "#"
    · simp [smoothScrollClick, hh]
    · simp [smoothScrollClick, hh, h]
  · intro tp hh hl
    simp [smoothScrollClick, hh, hl]

/-- Witness for C5: clicking `#features` with the target's bounding
top at 1000 and the page scrolled to 500 suppresses navigation and
scrolls to 1420. -/
theorem anchor_click_behavior_witness :
    (smoothScrollClick "#features"
        (fun h => if h = "#features" then some 1000 else none) 500).1 = true
    ∧ (smoothScrollClick "#features"
        (fun h => if h = "#features" then some 1000 else none) 500).2
      = ScrollAction.scrollTo 1420 := by
  have h := anchor_click_behavior "#features"
      (fun h => if h = "#features" then some 1000 else none) 500
  refine ⟨h.1, ?_⟩
  have h2 := h.2.2.2 1000 (by decide) (by decide)
  rw [h2]
  decide

/-- Claim C6: the video trigger opens the video-variant overlay
synchronously (one overlay appended, video variant last, nothing
scheduled), while a call-to-action click leaves the overlays untouched
synchronously and schedules the info-request modal open exactly 300
time units after the click (the ripple's own cleanup being the only
other scheduled task, at 600). -/
theorem video_click_immediate_cta_delayed (clientX clientY : ℚ)
    (b : Button) (d : Doc) :
    (videoBtnClick b d).1.2.overlays.length = d.overlays.length + 1
    ∧ ((videoBtnClick b d).1.2.overlays.getLast?).map Overlay.variant
      = some Variant.video
    ∧ (videoBtnClick b d).2 = []
    ∧ (ctaClick clientX clientY b d).1.2.overlays = d.overlays
    ∧ (ctaClick clientX clientY b d).2
      = [(600, ScheduledTask.removeRippleTask),
         (300, ScheduledTask.openDemoTask)] := by
  refine ⟨?_, ?_, rfl, rfl, rfl⟩
  · simp [videoBtnClick, showVideoModal]
  · simp [videoBtnClick, showVideoModal]

/-- Claim C7: style injection is idempotent — once the marker id is
present, `addModalStyles` and the ripple-keyframes injection leave the
document's injected styles unchanged, and a first call on a document
without the marker appends exactly one style element. -/
theorem style_injection_idempotent (d : Doc) (hs : List String) :
    addModalStyles (addModalStyles d) = addModalStyles d
    ∧ ("modal-styles" ∈ d.headStyles → addModalStyles d = d)
    ∧ ("modal-styles" ∉ d.headStyles →
        (addModalStyles d).headStyles = d.headStyles ++ ["modal-styles"])
    ∧ addRippleStyles (addRippleStyles hs) = addRippleStyles hs
    ∧ ("ripple-styles" ∈ hs → addRippleStyles hs = hs)
    ∧ (∀ (cx cy : ℚ) (b : Button),
        ((createRipple cx cy b d).1.2).headStyles
          = addRippleStyles d.headStyles) := by
  refine ⟨addModalStyles_mem _ (addModalStyles_has_marker d),
          addModalStyles_mem d, ?_,
          addRippleStyles_mem _ (addRippleStyles_has_marker hs),
          addRippleStyles_mem hs, fun _ _ _ => rfl⟩
  intro h
  simp [addModalStyles, h]

/-- Witness for C7: a repeated modal-style injection on a document
that already carries the marker changes nothing; a first injection on
an empty document adds exactly the marker; a repeated ripple-style
injection changes nothing. -/
theorem style_injection_idempotent_witness :
    addModalStyles docWithModalStyles = docWithModalStyles
    ∧ (addModalStyles emptyDoc).headStyles = ["modal-styles"]
    ∧ addRippleStyles ["ripple-styles"] = ["ripple-styles"] := by
  refine ⟨(style_injection_idempotent docWithModalStyles []).2.1 (by decide),
          ?_,
          (style_injection_idempotent emptyDoc ["ripple-styles"]).2.2.2.2.1
            (by decide)⟩
  have h := (style_injection_idempotent emptyDoc []).2.2.1 (by decide)
  simpa using h

/-- Claim C8: pressing Escape with no overlay present returns the
document unchanged (no node created or removed, no error), and with
overlays present it initiates `closeModal` on exactly the first
overlay in document order. -/
theorem escape_keydown_behavior (d : Doc) :
    (d.overlays = [] → keydown "Escape" d = (d, none))
    ∧ (∀ (o : Overlay) (rest : List Overlay), d.overlays = o :: rest →
        keydown "Escape" d = (closeModalStart o.oid d, some o.oid)) := by
  constructor
  · intro h
    simp [keydown, h]
  · intro o rest h
    simp [keydown, h]

/-- Witness for C8: Escape on the empty document is the identity, and
Escape with two overlays present initiates the close on the first one
(id 0). -/
theorem escape_keydown_behavior_witness :
    keydown "Escape" emptyDoc = (emptyDoc, none)
    ∧ (keydown "Escape" twoOverlayDoc).2 = some 0 := by
  refine ⟨(escape_keydown_behavior emptyDoc).1 rfl, ?_⟩
  have h := (escape_keydown_behavior twoOverlayDoc).2
      { oid := 0, variant := Variant.info, active := true,
        success := false, closeWired := true }
      [{ oid := 1, variant := Variant.video, active := true,
         success := false, closeWired := true }] rfl
  rw [h]

/-- Claim C9: `createRipple` mutates the clicked button itself — after
the scheduled 600-unit removal of the appended ripple node, the button
equals its original value except that its inline `position` style is
`relative` and its `overflow` style is `hidden`; while the ripple is
alive, exactly one child was appended, and its removal is the
scheduled task. -/
theorem createRipple_button_frame (clientX clientY : ℚ)
    (b : Button) (d : Doc) :
    removeAppendedRipple ((createRipple clientX clientY b d).1.1)
      = { b with stylePosition := some "relative",
                 styleOverflow := some "hidden" }
    ∧ ((createRipple clientX clientY b d).1.1).ripples.length
      = b.ripples.length + 1
    ∧ (600, ScheduledTask.removeRippleTask)
        ∈ (createRipple clientX clientY b d).2 := by
  refine ⟨?_, by simp [createRipple], by simp [createRipple]⟩
  simp [createRipple, removeAppendedRipple]

/-- Claim C3: the info-request submit handler suppresses default form
submission and swaps the modal content for the success panel with a
functioning close control re-attached; the overlay is not removed and
the scroll lock is untouched — only a subsequent explicit close
removes the overlay. -/
theorem demoSubmit_no_close (d : Doc) (o : Overlay)
    (hmem : o ∈ d.overlays) (_hv : o.variant = Variant.info) :
    (demoSubmit o.oid d).1 = true
    ∧ { o with success := true, closeWired := true }
        ∈ (demoSubmit o.oid d).2.overlays
    ∧ (demoSubmit o.oid d).2.overlays.length = d.overlays.length
    ∧ (demoSubmit o.oid d).2.bodyOverflowHidden = d.bodyOverflowHidden
    ∧ ∀ o2 ∈ (closeModal o.oid (demoSubmit o.oid d).2).overlays,
        o2.oid ≠ o.oid := by
  refine ⟨rfl, ?_, by simp [demoSubmit, showSuccessMessage], rfl, ?_⟩
  · have hmap := List.mem_map_of_mem
      (fun x : Overlay =>
        if x.oid = o.oid then { x with success := true, closeWired := true }
        else x) hmem
    simpa [demoSubmit, showSuccessMessage] using hmap
  · intro o2 h2
    simp [closeModal, closeModalFinish, closeModalStart, demoSubmit,
      showSuccessMessage, List.mem_filter] at h2
    exact h2.2

/-- Witness for C3: submitting on a document with a single open
info-request overlay suppresses the default, keeps exactly one overlay
(now showing the success panel with a wired close control), and leaves
the scroll locked. -/
theorem demoSubmit_no_close_witness :
    (demoSubmit 0 oneInfoDoc).1 = true
    ∧ ({ oid := 0, variant := Variant.info, active := true,
         success := true, closeWired := true } : Overlay)
        ∈ (demoSubmit 0 oneInfoDoc).2.overlays
    ∧ (demoSubmit 0 oneInfoDoc).2.overlays.length = 1 := by
  have h := demoSubmit_no_close oneInfoDoc
      { oid := 0, variant := Variant.info, active := true,
        success := false, closeWired := true }
      (by decide) rfl
  exact ⟨h.1, h.2.1, h.2.2.1⟩

theorem altRun_none (evs : List MEvent) : altRun none evs = none := by
  induction evs with
  | nil => rfl
  | cons e r ih =>
      have hstep : altStep none e = none := by cases e <;> rfl
      simpa [altRun, hstep] using ih

/-- The alternation invariant: along any legal alternation of open and
close events, the overlay count is 1 exactly while an overlay is open
and 0 otherwise, and the body scroll lock tracks the open state. -/
theorem runEvents_invariant (evs : List MEvent) :
    ∀ (b bf : Bool) (d : Doc),
      d.overlays.length = (if b then 1 else 0) →
      d.bodyOverflowHidden = b →
      altRun (some b) evs = some bf →
      (runEvents d evs).overlays.length = (if bf then 1 else 0)
      ∧ (runEvents d evs).bodyOverflowHidden = bf := by
  induction evs with
  | nil =>
      intro b bf d hov hbody halt
      have hb : b = bf := by simpa [altRun] using halt
      subst hb
      exact ⟨hov, hbody⟩
  | cons e r ih =>
      intro b bf d hov hbody halt
      cases e with
      | openInfo =>
          cases b with
          | false =>
              have hnil : d.overlays = [] := by
                simpa using List.length_eq_zero.mp (by simpa using hov)
              have halt' : altRun (some true) r = some bf := by
                simpa [altRun, altStep] using halt
              have hlen : (stepEvent d MEvent.openInfo).overlays.length = 1 := by
                simp [stepEvent, rafActivate, showDemoModal, hnil]
              have hbf : (stepEvent d MEvent.openInfo).bodyOverflowHidden = true := by
                simp [stepEvent, rafActivate, showDemoModal]
              have hrec := ih true bf (stepEvent d MEvent.openInfo)
                (by simpa using hlen) hbf halt'
              simpa [runEvents] using hrec
          | true =>
              exfalso
              have hcontra : altRun none r = some bf := by
                simpa [altRun, altStep] using halt
              simp [altRun_none] at hcontra
      | openVideo =>
          cases b with
          | false =>
              have hnil : d.overlays = [] := by
                simpa using List.length_eq_zero.mp (by simpa using hov)
              have halt' : altRun (some true) r = some bf := by
                simpa [altRun, altStep] using halt
              have hlen : (stepEvent d MEvent.openVideo).overlays.length = 1 := by
                simp [stepEvent, rafActivate, showVideoModal, hnil]
              have hbf : (stepEvent d MEvent.openVideo).bodyOverflowHidden = true := by
                simp [stepEvent, rafActivate, showVideoModal]
              have hrec := ih true bf (stepEvent d MEvent.openVideo)
                (by simpa using hlen) hbf halt'
              simpa [runEvents] using hrec
          | true =>
              exfalso
              have hcontra : altRun none r = some bf := by
                simpa [altRun, altStep] using halt
              simp [altRun_none] at hcontra
      | closeFirst =>
          cases b with
          | false =>
              exfalso
              have hcontra : altRun none r = some bf := by
                simpa [altRun, altStep] using halt
              simp [altRun_none] at hcontra
          | true =>
              obtain ⟨o, ho⟩ := List.length_eq_one.mp (by simpa using hov)
              have halt' : altRun (some false) r = some bf := by
                simpa [altRun, altStep] using halt
              have hhead : d.overlays.head? = some o := by simp [ho]
              have hstep : stepEvent d MEvent.closeFirst = closeModal o.oid d := by
                simp [stepEvent, hhead]
              have hlen : (stepEvent d MEvent.closeFirst).overlays.length = 0 := by
                rw [hstep]
                simp [closeModal, closeModalFinish, closeModalStart, ho]
              have hbf : (stepEvent d MEvent.closeFirst).bodyOverflowHidden = false := by
                rw [hstep]
                simp [closeModal, closeModalFinish, closeModalStart]
              have hrec := ih false bf (stepEvent d MEvent.closeFirst)
                (by simpa using hlen) hbf halt'
              simpa [runEvents] using hrec

/-- Claim C2 counterexample: two consecutive opens from the empty
document leave two `.modal-overlay` nodes in the document — not
exactly one, as the claim asserts for every open in every open/close
sequence (nothing guards a second open). -/
theorem open_twice_two_overlays :
    (runEvents emptyDoc [MEvent.openInfo, MEvent.openInfo]).overlays.length = 2
    ∧ (runEvents emptyDoc
        [MEvent.openInfo, MEvent.openInfo]).overlays.length ≠ 1 := by
  decide

/-- Claim C2 (amended): along any alternating sequence of open and
close events starting from a document with no overlay and unlocked
scroll, an open results in exactly one overlay node and a close — once
its 300-time-unit delay has elapsed — results in zero overlay nodes
with the scroll lock restored; before the delay elapses the close
removes no node. -/
theorem modal_overlay_invariant (d : Doc) (evs : List MEvent) (bf : Bool)
    (h1 : d.overlays = []) (h2 : d.bodyOverflowHidden = false)
    (h3 : altRun (some false) evs = some bf) :
    (runEvents d evs).overlays.length = (if bf then 1 else 0)
    ∧ (runEvents d evs).bodyOverflowHidden = bf
    ∧ ∀ (d2 : Doc) (oid : Nat),
        (closeModalStart oid d2).overlays.length = d2.overlays.length := by
  have h := runEvents_invariant evs false bf d (by simp [h1]) h2 h3
  exact ⟨h.1, h.2, fun d2 oid => by simp [closeModalStart]⟩

/-- Witness for C2: opening the info modal and then closing it takes
the empty document back to zero overlays with the scroll unlocked;
mid-sequence, after the open alone, exactly one overlay exists with
the scroll locked. -/
theorem modal_overlay_invariant_witness :
    ((runEvents emptyDoc [MEvent.openInfo]).overlays.length = 1
      ∧ (runEvents emptyDoc [MEvent.openInfo]).bodyOverflowHidden = true)
    ∧ (runEvents emptyDoc [MEvent.openInfo, MEvent.closeFirst]).overlays.length = 0
    ∧ (runEvents emptyDoc
        [MEvent.openInfo, MEvent.closeFirst]).bodyOverflowHidden = false := by
  have hopen := modal_overlay_invariant emptyDoc [MEvent.openInfo] true
    rfl rfl (by decide)
  have hclose := modal_overlay_invariant emptyDoc
    [MEvent.openInfo, MEvent.closeFirst] false rfl rfl (by decide)
  exact ⟨⟨by simpa using hopen.1, hopen.2.1⟩,
         by simpa using hclose.1, hclose.2.1⟩

end SimpleTort
